import Mathlib

/-!
# flock: inter-process advisory file lock

A shallow embedding of the Go package `flock` (files `flock.go`, `flock_unix.go`,
`flock_windows.go`, `flock_other.go`).

The package is a thin layer over operating-system calls, so the embedding makes the
operating system explicit:

* an `OS` value answers every system call, as a function of the calls made so far and of
  the arguments of the call (quantifying over `OS` is quantifying over every outcome of
  every call);
* a `State` holds the handle (`Flock`) and the chronological trace of the system calls the
  handle has issued, each with the answer it got;
* every method of `*Flock` is a function `State → result × State`.

Constants of the Go standard library and of `golang.org/x/sys/windows` that the package
uses (`os.O_CREATE`, `syscall.LOCK_EX`, ...) differ between hosts and are not part of the
package: they are the fields of `Consts`, a parameter of every operation.
-/

namespace GoFlock

/-! ## Data model -/

/-- Go error values (non-nil values of the interface type `error`) that reach the package:
`syscall.Errno` numbers, `errors.New` values, and `*os.PathError` wrappers, which carry
the operation, the path and the wrapped error. A Go `error` is an `Option GoError`,
`none` being `nil`. -/
inductive GoError where
  | errno (code : Nat)
  | errorString (text : String)
  | pathError (op path : String) (err : GoError)
  deriving DecidableEq, Repr

/-- The value `ErrUnsupportedPlatform` of `flock.go`. -/
def ErrUnsupportedPlatform : GoError :=
  GoError.errorString "file locking is not supported on this platform"

/-- The function `errors.Is` of the Go standard library on non-nil arguments: the error
or one of the errors it wraps (the chain of `Unwrap`) equals the target. The `Is` methods
of the standard error types only answer for the sentinel errors of package `os`, never
for an error number as target, which is the only target this package uses. -/
def errorsIs : GoError → GoError → Bool
  | GoError.pathError op path err, target =>
      decide (GoError.pathError op path err = target) || errorsIs err target
  | GoError.errno code, target => decide (GoError.errno code = target)
  | GoError.errorString text, target => decide (GoError.errorString text = target)

/-- An open file (`*os.File`), identified by its descriptor. -/
structure File where
  fd : Nat
  deriving DecidableEq, Repr

/-- The method `(*os.File).Fd`. -/
def File.Fd (file : File) : Nat := file.fd

/-- The type `Flock` of `flock.go`: the path and the optional open file. -/
structure Flock where
  path : String
  file : Option File
  deriving DecidableEq, Repr

/-- The function `New` of `flock.go`. -/
def New (path : String) : Flock := ⟨path, none⟩

/-- The answer of `os.OpenFile`: a file, or an error. -/
inductive OpenResult where
  | ok (file : File)
  | err (e : GoError)
  deriving DecidableEq, Repr

/-- The structure `windows.Overlapped`. -/
structure Overlapped where
  Internal : Nat
  InternalHigh : Nat
  Offset : Nat
  OffsetHigh : Nat
  HEvent : Nat
  deriving DecidableEq, Repr

/-- The literal `windows.Overlapped{}`: every field zero. -/
def Overlapped.zero : Overlapped := ⟨0, 0, 0, 0, 0⟩

/-- One system call issued by the package, with the answer it got. -/
inductive Event where
  | openFile (name : String) (flag perm : Nat) (res : OpenResult)
  | flock (fd how : Nat) (res : Option GoError)
  | lockFileEx (handle flags reserved bytesLow bytesHigh : Nat) (ol : Overlapped)
      (res : Option GoError)
  | unlockFileEx (handle reserved bytesLow bytesHigh : Nat) (ol : Overlapped)
      (res : Option GoError)
  | close (file : File) (res : Option GoError)
  deriving DecidableEq, Repr

/-- The operating system: the answer to each call, given the calls made so far. -/
structure OS where
  openFile : List Event → String → Nat → Nat → OpenResult
  flock : List Event → Nat → Nat → Option GoError
  lockFileEx : List Event → Nat → Nat → Nat → Nat → Nat → Overlapped → Option GoError
  unlockFileEx : List Event → Nat → Nat → Nat → Nat → Overlapped → Option GoError
  close : List Event → File → Option GoError

/-- Host constants used by the package. -/
structure Consts where
  O_RDONLY : Nat
  O_RDWR : Nat
  O_CREATE : Nat
  O_TRUNC : Nat
  LOCK_SH : Nat
  LOCK_EX : Nat
  LOCK_NB : Nat
  LOCK_UN : Nat
  EAGAIN : Nat
  EWOULDBLOCK : Nat
  LOCKFILE_FAIL_IMMEDIATELY : Nat
  LOCKFILE_EXCLUSIVE_LOCK : Nat
  ERROR_LOCK_VIOLATION : Nat

/-- The handle and the trace of the system calls issued so far (oldest first). -/
structure State where
  f : Flock
  trace : List Event

/-! ## System calls as state transformers -/

/-- Call `os.OpenFile(name, flag, perm)`. -/
def osOpenFile (os : OS) (name : String) (flag perm : Nat) (s : State) :
    OpenResult × State :=
  (os.openFile s.trace name flag perm,
    ⟨s.f, s.trace ++ [Event.openFile name flag perm (os.openFile s.trace name flag perm)]⟩)

/-- Call `syscall.Flock(fd, how)`. -/
def sysFlock (os : OS) (fd how : Nat) (s : State) : Option GoError × State :=
  (os.flock s.trace fd how,
    ⟨s.f, s.trace ++ [Event.flock fd how (os.flock s.trace fd how)]⟩)

/-- Call `windows.LockFileEx(handle, flags, reserved, bytesLow, bytesHigh, ol)`. -/
def winLockFileEx (os : OS) (handle flags reserved bytesLow bytesHigh : Nat)
    (ol : Overlapped) (s : State) : Option GoError × State :=
  (os.lockFileEx s.trace handle flags reserved bytesLow bytesHigh ol,
    ⟨s.f, s.trace ++ [Event.lockFileEx handle flags reserved bytesLow bytesHigh ol
      (os.lockFileEx s.trace handle flags reserved bytesLow bytesHigh ol)]⟩)

/-- Call `windows.UnlockFileEx(handle, reserved, bytesLow, bytesHigh, ol)`. -/
def winUnlockFileEx (os : OS) (handle reserved bytesLow bytesHigh : Nat)
    (ol : Overlapped) (s : State) : Option GoError × State :=
  (os.unlockFileEx s.trace handle reserved bytesLow bytesHigh ol,
    ⟨s.f, s.trace ++ [Event.unlockFileEx handle reserved bytesLow bytesHigh ol
      (os.unlockFileEx s.trace handle reserved bytesLow bytesHigh ol)]⟩)

/-- Call `file.Close()`. -/
def fileClose (os : OS) (file : File) (s : State) : Option GoError × State :=
  (os.close s.trace file, ⟨s.f, s.trace ++ [Event.close file (os.close s.trace file)]⟩)

/-- The assignment `f.file = v`. -/
def setFile (v : Option File) (s : State) : State := ⟨⟨s.f.path, v⟩, s.trace⟩

/-- The statements `f.file.Close(); f.file = nil`, the result of `Close` being dropped.
The first statement can only run when `f.file` is not nil. -/
def closeAndClear (os : OS) (s : State) : State :=
  match s.f.file with
  | some file => setFile none (fileClose os file s).2
  | none => s

/-! ## `flock_unix.go` -/

namespace Unix

/-- The method `Lock` of `flock_unix.go`. -/
def Lock (os : OS) (c : Consts) (s : State) : Option GoError × State :=
  match osOpenFile os s.f.path (c.O_CREATE ||| c.O_RDWR) 0o666 s with
  | (OpenResult.err err, s1) => (some err, s1)
  | (OpenResult.ok file, s1) =>
    match sysFlock os file.Fd c.LOCK_EX (setFile (some file) s1) with
    | (some err, s2) => (some err, closeAndClear os s2)
    | (none, s2) => (none, s2)

/-- The method `RLock` of `flock_unix.go`. -/
def RLock (os : OS) (c : Consts) (s : State) : Option GoError × State :=
  match osOpenFile os s.f.path (c.O_CREATE ||| c.O_RDONLY) 0o666 s with
  | (OpenResult.err err, s1) => (some err, s1)
  | (OpenResult.ok file, s1) =>
    match sysFlock os file.Fd c.LOCK_SH (setFile (some file) s1) with
    | (some err, s2) => (some err, closeAndClear os s2)
    | (none, s2) => (none, s2)

/-- The method `Unlock` of `flock_unix.go`: the deferred function runs after the result
of `syscall.Flock` has been computed. -/
def Unlock (os : OS) (c : Consts) (s : State) : Option GoError × State :=
  match s.f.file with
  | none => (none, s)
  | some file =>
    match sysFlock os file.Fd c.LOCK_UN s with
    | (res, s1) => (res, closeAndClear os s1)

/-- The method `TryLock` of `flock_unix.go`. -/
def TryLock (os : OS) (c : Consts) (s : State) : (Bool × Option GoError) × State :=
  match osOpenFile os s.f.path (c.O_CREATE ||| c.O_RDWR) 0o666 s with
  | (OpenResult.err err, s1) => ((false, some err), s1)
  | (OpenResult.ok file, s1) =>
    match sysFlock os file.Fd (c.LOCK_EX ||| c.LOCK_NB) (setFile (some file) s1) with
    | (none, s2) => ((true, none), s2)
    | (some err, s2) =>
      if err = GoError.errno c.EWOULDBLOCK ∨ err = GoError.errno c.EAGAIN then
        ((false, none), closeAndClear os s2)
      else
        ((false, some err), closeAndClear os s2)

/-- The method `TryRLock` of `flock_unix.go`. -/
def TryRLock (os : OS) (c : Consts) (s : State) : (Bool × Option GoError) × State :=
  match osOpenFile os s.f.path (c.O_CREATE ||| c.O_RDONLY) 0o666 s with
  | (OpenResult.err err, s1) => ((false, some err), s1)
  | (OpenResult.ok file, s1) =>
    match sysFlock os file.Fd (c.LOCK_SH ||| c.LOCK_NB) (setFile (some file) s1) with
    | (none, s2) => ((true, none), s2)
    | (some err, s2) =>
      if err = GoError.errno c.EWOULDBLOCK ∨ err = GoError.errno c.EAGAIN then
        ((false, none), closeAndClear os s2)
      else
        ((false, some err), closeAndClear os s2)

end Unix

/-! ## `flock_windows.go` -/

namespace Windows

/-- The method `Lock` of `flock_windows.go`. -/
def Lock (os : OS) (c : Consts) (s : State) : Option GoError × State :=
  match osOpenFile os s.f.path (c.O_CREATE ||| c.O_RDWR) 0o666 s with
  | (OpenResult.err err, s1) => (some err, s1)
  | (OpenResult.ok file, s1) =>
    match winLockFileEx os file.Fd c.LOCKFILE_EXCLUSIVE_LOCK 0 1 0 Overlapped.zero
        (setFile (some file) s1) with
    | (some err, s2) => (some err, closeAndClear os s2)
    | (none, s2) => (none, s2)

/-- The method `RLock` of `flock_windows.go`. -/
def RLock (os : OS) (c : Consts) (s : State) : Option GoError × State :=
  match osOpenFile os s.f.path (c.O_CREATE ||| c.O_RDWR) 0o666 s with
  | (OpenResult.err err, s1) => (some err, s1)
  | (OpenResult.ok file, s1) =>
    match winLockFileEx os file.Fd 0 0 1 0 Overlapped.zero (setFile (some file) s1) with
    | (some err, s2) => (some err, closeAndClear os s2)
    | (none, s2) => (none, s2)

/-- The method `Unlock` of `flock_windows.go`: the deferred function runs after the
result of `windows.UnlockFileEx` has been computed. -/
def Unlock (os : OS) (_c : Consts) (s : State) : Option GoError × State :=
  match s.f.file with
  | none => (none, s)
  | some file =>
    match winUnlockFileEx os file.Fd 0 1 0 Overlapped.zero s with
    | (res, s1) => (res, closeAndClear os s1)

/-- The method `TryLock` of `flock_windows.go`. -/
def TryLock (os : OS) (c : Consts) (s : State) : (Bool × Option GoError) × State :=
  match osOpenFile os s.f.path (c.O_CREATE ||| c.O_RDWR) 0o666 s with
  | (OpenResult.err err, s1) => ((false, some err), s1)
  | (OpenResult.ok file, s1) =>
    match winLockFileEx os file.Fd
        (c.LOCKFILE_EXCLUSIVE_LOCK ||| c.LOCKFILE_FAIL_IMMEDIATELY) 0 1 0 Overlapped.zero
        (setFile (some file) s1) with
    | (none, s2) => ((true, none), s2)
    | (some err, s2) =>
      if errorsIs err (GoError.errno c.ERROR_LOCK_VIOLATION) = true then
        ((false, none), closeAndClear os s2)
      else
        ((false, some err), closeAndClear os s2)

/-- The method `TryRLock` of `flock_windows.go`. -/
def TryRLock (os : OS) (c : Consts) (s : State) : (Bool × Option GoError) × State :=
  match osOpenFile os s.f.path (c.O_CREATE ||| c.O_RDWR) 0o666 s with
  | (OpenResult.err err, s1) => ((false, some err), s1)
  | (OpenResult.ok file, s1) =>
    match winLockFileEx os file.Fd c.LOCKFILE_FAIL_IMMEDIATELY 0 1 0 Overlapped.zero
        (setFile (some file) s1) with
    | (none, s2) => ((true, none), s2)
    | (some err, s2) =>
      if errorsIs err (GoError.errno c.ERROR_LOCK_VIOLATION) = true then
        ((false, none), closeAndClear os s2)
      else
        ((false, some err), closeAndClear os s2)

end Windows

/-! ## `flock_other.go` -/

namespace Other

/-- The method `Lock` of `flock_other.go`. -/
def Lock (_os : OS) (_c : Consts) (s : State) : Option GoError × State :=
  (some ErrUnsupportedPlatform, s)

/-- The method `RLock` of `flock_other.go`. -/
def RLock (_os : OS) (_c : Consts) (s : State) : Option GoError × State :=
  (some ErrUnsupportedPlatform, s)

/-- The method `Unlock` of `flock_other.go`. -/
def Unlock (_os : OS) (_c : Consts) (s : State) : Option GoError × State :=
  (some ErrUnsupportedPlatform, s)

/-- The method `TryLock` of `flock_other.go`. -/
def TryLock (_os : OS) (_c : Consts) (s : State) : (Bool × Option GoError) × State :=
  ((false, some ErrUnsupportedPlatform), s)

/-- The method `TryRLock` of `flock_other.go`. -/
def TryRLock (_os : OS) (_c : Consts) (s : State) : (Bool × Option GoError) × State :=
  ((false, some ErrUnsupportedPlatform), s)

end Other

/-! ## The three builds behind one interface -/

/-- The build of the package, chosen by the `go:build` lines of the three files. -/
inductive Backend where
  | unix
  | windows
  | other
  deriving DecidableEq, Repr

/-- The five methods of `*Flock`. -/
inductive Op where
  | Lock
  | RLock
  | Unlock
  | TryLock
  | TryRLock
  deriving DecidableEq, Repr

/-- The four acquire methods. -/
def Op.isAcquire : Op → Bool
  | Op.Unlock => false
  | _ => true

/-- What a method returns: `error` for `Lock`, `RLock` and `Unlock`, `(bool, error)` for
`TryLock` and `TryRLock`. -/
inductive Result where
  | error (err : Option GoError)
  | tried (acquired : Bool) (err : Option GoError)
  deriving DecidableEq, Repr

/-- The method returned a non-nil error, or `acquired = false`. -/
def Result.failed : Result → Bool
  | Result.error err => err.isSome
  | Result.tried acquired err => err.isSome || !acquired

/-- A blocking method result as a `Result`. -/
def liftError (r : Option GoError × State) : Result × State := (Result.error r.1, r.2)

/-- A non-blocking method result as a `Result`. -/
def liftTried (r : (Bool × Option GoError) × State) : Result × State :=
  (Result.tried r.1.1 r.1.2, r.2)

/-- Call method `op` of the handle in build `b`. -/
def step (b : Backend) (os : OS) (c : Consts) (op : Op) (s : State) : Result × State :=
  match b, op with
  | Backend.unix, Op.Lock => liftError (Unix.Lock os c s)
  | Backend.unix, Op.RLock => liftError (Unix.RLock os c s)
  | Backend.unix, Op.Unlock => liftError (Unix.Unlock os c s)
  | Backend.unix, Op.TryLock => liftTried (Unix.TryLock os c s)
  | Backend.unix, Op.TryRLock => liftTried (Unix.TryRLock os c s)
  | Backend.windows, Op.Lock => liftError (Windows.Lock os c s)
  | Backend.windows, Op.RLock => liftError (Windows.RLock os c s)
  | Backend.windows, Op.Unlock => liftError (Windows.Unlock os c s)
  | Backend.windows, Op.TryLock => liftTried (Windows.TryLock os c s)
  | Backend.windows, Op.TryRLock => liftTried (Windows.TryRLock os c s)
  | Backend.other, Op.Lock => liftError (Other.Lock os c s)
  | Backend.other, Op.RLock => liftError (Other.RLock os c s)
  | Backend.other, Op.Unlock => liftError (Other.Unlock os c s)
  | Backend.other, Op.TryLock => liftTried (Other.TryLock os c s)
  | Backend.other, Op.TryRLock => liftTried (Other.TryRLock os c s)

/-- Call the methods of `ops` one after the other. -/
def run (b : Backend) (os : OS) (c : Consts) : List Op → State → State
  | [], s => s
  | op :: ops, s => run b os c ops (step b os c op s).2

/-- No acquire method of `ops` is called while the handle stores a file. -/
def acquiresOnlyWhenIdle (b : Backend) (os : OS) (c : Consts) : List Op → State → Bool
  | [], _ => true
  | op :: ops, s =>
      (!op.isAcquire || s.f.file.isNone) && acquiresOnlyWhenIdle b os c ops (step b os c op s).2

/-! ## Reading a trace -/

/-- The event is a call of `os.OpenFile`. -/
def Event.isOpen : Event → Bool
  | Event.openFile _ _ _ _ => true
  | _ => false

/-- The event is a call of `Close`. -/
def Event.isClose : Event → Bool
  | Event.close _ _ => true
  | _ => false

/-- The effect of one event on the list of open files: a successful `os.OpenFile` adds
its file, `Close` removes one occurrence of its file (whatever `Close` returns, the
`*os.File` is closed). -/
def applyEvent (files : List File) : Event → List File
  | Event.openFile _ _ _ (OpenResult.ok file) => files ++ [file]
  | Event.close file _ => files.erase file
  | _ => files

/-- The files opened and not yet closed by the calls of a trace. -/
def openFiles (trace : List Event) : List File := trace.foldl applyEvent []

/-- The event is a successful call of `os.OpenFile`. -/
def Event.isOpened : Event → Bool
  | Event.openFile _ _ _ (OpenResult.ok _) => true
  | _ => false

/-- The number of successful calls of `os.OpenFile` in a trace. -/
def countOpened (trace : List Event) : Nat := trace.countP Event.isOpened

/-- The number of calls of `Close` in a trace. -/
def countClosed (trace : List Event) : Nat := trace.countP Event.isClose

/-- The results of calling the methods of `ops` one after the other. -/
def runResults (b : Backend) (os : OS) (c : Consts) : List Op → State → List Result
  | [], _ => []
  | op :: ops, s => (step b os c op s).1 :: runResults b os c ops (step b os c op s).2

/-- The open files of the trace are accounted for by the handle: the files opened and not
yet closed are exactly the stored file, if any, and every successful `os.OpenFile` but
the one of the stored file has been followed by one `Close`. -/
def accounted (s : State) : Prop :=
  openFiles s.trace = s.f.file.toList ∧
  countOpened s.trace = countClosed s.trace + s.f.file.toList.length

instance (s : State) : Decidable (accounted s) := by
  unfold accounted
  exact inferInstance

/-- The descriptor a call acts on; `os.OpenFile` acts on a path, not on a descriptor. -/
def Event.target : Event → Option Nat
  | Event.openFile _ _ _ _ => none
  | Event.flock fd _ _ => some fd
  | Event.lockFileEx handle _ _ _ _ _ _ => some handle
  | Event.unlockFileEx handle _ _ _ _ _ => some handle
  | Event.close file _ => some file.Fd

/-! ## Reading the arguments of the calls -/

/-- The calls issued between `s` and `s2` start with `os.OpenFile` on the path of the
handle with flag word `flag` and permission bits 0666, and no other call of `os.OpenFile`
follows. -/
def opensOnce (os : OS) (s s2 : State) (flag : Nat) : Prop :=
  ∃ rest, s2.trace = s.trace ++
      Event.openFile s.f.path flag 0o666 (os.openFile s.trace s.f.path flag 0o666) :: rest ∧
    ∀ e ∈ rest, e.isOpen = false

/-- The calls issued between `s` and `s2` are the successful `os.OpenFile` of `file` with
flag word `flag`, then the request `lock` with some answer, then nothing but `Close`. -/
def locksNext (s s2 : State) (flag : Nat) (file : File) (lock : Option GoError → Event) :
    Prop :=
  ∃ r rest, s2.trace = s.trace ++
      Event.openFile s.f.path flag 0o666 (OpenResult.ok file) :: lock r :: rest ∧
    ∀ e ∈ rest, e.isClose = true

/-- The byte range (offset, length) of a `windows.LockFileEx` or `windows.UnlockFileEx`
call: the offset is in the `Overlapped` structure, the length in the two length words. -/
def Event.byteRange : Event → Option (Nat × Nat)
  | Event.lockFileEx _ _ _ bytesLow bytesHigh ol _ =>
      some (ol.Offset + 2 ^ 32 * ol.OffsetHigh, bytesLow + 2 ^ 32 * bytesHigh)
  | Event.unlockFileEx _ _ bytesLow bytesHigh ol _ =>
      some (ol.Offset + 2 ^ 32 * ol.OffsetHigh, bytesLow + 2 ^ 32 * bytesHigh)
  | _ => none

/-- Every bit of `flag` is set in `word`. -/
def hasBits (word flag : Nat) : Prop := word &&& flag = flag

/-- No bit of `flag` is set in `word`. -/
def lacksBits (word flag : Nat) : Prop := word &&& flag = 0

/-- The flag constants of the host are not zero and sit on different bits (`O_RDONLY`,
which is zero on every host, only has to stay clear of `O_TRUNC`). -/
def Consts.distinctBits (c : Consts) : Prop :=
  c.O_CREATE &&& c.O_TRUNC = 0 ∧ c.O_RDWR &&& c.O_TRUNC = 0 ∧ c.O_RDONLY &&& c.O_TRUNC = 0 ∧
  c.LOCK_NB ≠ 0 ∧ c.LOCK_EX &&& c.LOCK_NB = 0 ∧ c.LOCK_SH &&& c.LOCK_NB = 0 ∧
  c.LOCKFILE_EXCLUSIVE_LOCK ≠ 0 ∧ c.LOCKFILE_FAIL_IMMEDIATELY ≠ 0 ∧
  c.LOCKFILE_EXCLUSIVE_LOCK &&& c.LOCKFILE_FAIL_IMMEDIATELY = 0

instance (c : Consts) : Decidable c.distinctBits := by
  unfold Consts.distinctBits
  exact inferInstance

/-! ## The arguments each method passes, in one table

The tables below restate, per build and per method, the arguments found in the three
source files. They are only used to phrase hypotheses such as "the open call of this
method succeeds"; the lemmas `step_open_err`, `step_lock_ok` and `step_lock_err` prove
that the methods pass exactly these arguments. -/

/-- The flag argument of `os.OpenFile` in each acquire method. -/
def openFlag (b : Backend) (c : Consts) (op : Op) : Nat :=
  match b, op with
  | Backend.unix, Op.RLock => c.O_CREATE ||| c.O_RDONLY
  | Backend.unix, Op.TryRLock => c.O_CREATE ||| c.O_RDONLY
  | _, _ => c.O_CREATE ||| c.O_RDWR

/-- The second argument of `syscall.Flock` in each method of `flock_unix.go`. -/
def flockHow (c : Consts) : Op → Nat
  | Op.Lock => c.LOCK_EX
  | Op.RLock => c.LOCK_SH
  | Op.Unlock => c.LOCK_UN
  | Op.TryLock => c.LOCK_EX ||| c.LOCK_NB
  | Op.TryRLock => c.LOCK_SH ||| c.LOCK_NB

/-- The flags argument of `windows.LockFileEx` in each acquire method of
`flock_windows.go`. -/
def lockFileExFlags (c : Consts) : Op → Nat
  | Op.Lock => c.LOCKFILE_EXCLUSIVE_LOCK
  | Op.TryLock => c.LOCKFILE_EXCLUSIVE_LOCK ||| c.LOCKFILE_FAIL_IMMEDIATELY
  | Op.TryRLock => c.LOCKFILE_FAIL_IMMEDIATELY
  | _ => 0

/-- The lock request of an acquire method on `file`, with the answer `res`. -/
def lockEvent (b : Backend) (c : Consts) (op : Op) (file : File) (res : Option GoError) :
    Event :=
  match b with
  | Backend.windows =>
      Event.lockFileEx file.Fd (lockFileExFlags c op) 0 1 0 Overlapped.zero res
  | _ => Event.flock file.Fd (flockHow c op) res

/-- The answer of the host to the lock request of an acquire method on `file`, after the
calls of `trace`. -/
def lockAnswer (b : Backend) (os : OS) (c : Consts) (op : Op) (trace : List Event)
    (file : File) : Option GoError :=
  match b with
  | Backend.windows =>
      os.lockFileEx trace file.Fd (lockFileExFlags c op) 0 1 0 Overlapped.zero
  | _ => os.flock trace file.Fd (flockHow c op)

/-- The unlock request of `Unlock` on `file`, with the answer `res`. -/
def unlockEvent (b : Backend) (c : Consts) (file : File) (res : Option GoError) : Event :=
  match b with
  | Backend.windows => Event.unlockFileEx file.Fd 0 1 0 Overlapped.zero res
  | _ => Event.flock file.Fd c.LOCK_UN res

/-- The answer of the host to the unlock request of `Unlock` on `file`. -/
def unlockAnswer (b : Backend) (os : OS) (c : Consts) (trace : List Event) (file : File) :
    Option GoError :=
  match b with
  | Backend.windows => os.unlockFileEx trace file.Fd 0 1 0 Overlapped.zero
  | _ => os.flock trace file.Fd c.LOCK_UN

/-- The contention signal of each build: `EWOULDBLOCK` or `EAGAIN` itself on POSIX, an
error that is `ERROR_LOCK_VIOLATION` in the sense of `errors.Is` on Windows. -/
def isContention (b : Backend) (c : Consts) (e : GoError) : Prop :=
  match b with
  | Backend.windows => errorsIs e (GoError.errno c.ERROR_LOCK_VIOLATION) = true
  | _ => e = GoError.errno c.EWOULDBLOCK ∨ e = GoError.errno c.EAGAIN

instance (b : Backend) (c : Consts) (e : GoError) : Decidable (isContention b c e) := by
  unfold isContention
  cases b <;> exact inferInstance

/-- The two non-blocking acquire methods. -/
def Op.isTry : Op → Bool
  | Op.TryLock => true
  | Op.TryRLock => true
  | _ => false

/-- What an acquire method returns on success. -/
def acquired (op : Op) : Result :=
  if op.isTry then Result.tried true none else Result.error none

/-- What an acquire method returns when it passes the error `e` on. -/
def passedOn (op : Op) (e : GoError) : Result :=
  if op.isTry then Result.tried false (some e) else Result.error (some e)

/-! ## Concrete hosts and handles, used to evaluate the model -/

/-- The constants on linux/amd64 (`LOCKFILE_*` and `ERROR_LOCK_VIOLATION` as on Windows). -/
def linuxConsts : Consts :=
  ⟨0, 2, 0x40, 0x200, 1, 2, 4, 8, 11, 11, 1, 2, 33⟩

/-- The constants on darwin, where the open flags and `EAGAIN` differ from linux. -/
def darwinConsts : Consts :=
  ⟨0, 2, 0x200, 0x400, 1, 2, 4, 8, 35, 35, 1, 2, 33⟩

/-- A missing directory: `os.OpenFile` fails with `ENOENT`, every other call succeeds. -/
def osNoDir : OS :=
  ⟨fun _ name _ _ => OpenResult.err (GoError.pathError "open" name (GoError.errno 2)),
   fun _ _ _ => none, fun _ _ _ _ _ _ _ => none, fun _ _ _ _ _ _ => none, fun _ _ => none⟩

/-- A host where every call succeeds; the descriptor of an opened file is 3 plus the
number of calls made before. -/
def osFree : OS :=
  ⟨fun trace _ _ _ => OpenResult.ok ⟨3 + trace.length⟩,
   fun _ _ _ => none, fun _ _ _ _ _ _ _ => none, fun _ _ _ _ _ _ => none, fun _ _ => none⟩

/-- A host where the lock is held elsewhere: `os.OpenFile` succeeds with descriptor 3,
every lock request fails with code `code`, unlocking fails with `EBADF`, `Close` fails
with `EIO`. -/
def osBusy (code : Nat) : OS :=
  ⟨fun _ _ _ _ => OpenResult.ok ⟨3⟩,
   fun _ _ how => if how = 8 then some (GoError.errno 9) else some (GoError.errno code),
   fun _ _ _ _ _ _ _ => some (GoError.errno code),
   fun _ _ _ _ _ _ => some (GoError.errno 9), fun _ _ => some (GoError.errno 5)⟩

/-- A handle on path `x.lock` that stores the open file with descriptor 3. -/
def heldState : State := ⟨⟨"x.lock", some ⟨3⟩⟩, []⟩

/-- A fresh handle on path `x.lock`. -/
def idleState : State := ⟨New "x.lock", []⟩

/-! ## The flag constants of real hosts sit on different bits -/

theorem distinctBits_hosts : linuxConsts.distinctBits ∧ darwinConsts.distinctBits := by
  decide

/-! ## How an acquire method runs -/

theorem step_open_err (b : Backend) (op : Op) (os : OS) (c : Consts) (s : State)
    (e : GoError) (hb : b ≠ Backend.other) (hop : op.isAcquire = true)
    (h : os.openFile s.trace s.f.path (openFlag b c op) 0o666 = OpenResult.err e) :
    step b os c op s = (passedOn op e,
      ⟨s.f, s.trace ++ [Event.openFile s.f.path (openFlag b c op) 0o666 (OpenResult.err e)]⟩) := by
  cases b <;> cases op <;> simp [Op.isAcquire] at hb hop <;> simp only [openFlag] at h ⊢ <;>
    simp [step, liftError, liftTried, Unix.Lock, Unix.RLock, Unix.TryLock, Unix.TryRLock,
      Windows.Lock, Windows.RLock, Windows.TryLock, Windows.TryRLock, osOpenFile, h,
      passedOn, Op.isTry]

theorem step_lock_ok (b : Backend) (op : Op) (os : OS) (c : Consts) (s : State)
    (file : File) (hb : b ≠ Backend.other) (hop : op.isAcquire = true)
    (h : os.openFile s.trace s.f.path (openFlag b c op) 0o666 = OpenResult.ok file)
    (hl : lockAnswer b os c op
      (s.trace ++ [Event.openFile s.f.path (openFlag b c op) 0o666 (OpenResult.ok file)])
      file = none) :
    step b os c op s = (acquired op,
      ⟨⟨s.f.path, some file⟩,
        s.trace ++ [Event.openFile s.f.path (openFlag b c op) 0o666 (OpenResult.ok file),
          lockEvent b c op file none]⟩) := by
  cases b <;> cases op <;> simp [Op.isAcquire] at hb hop <;>
    simp only [openFlag, lockAnswer, flockHow, lockFileExFlags] at h hl ⊢ <;>
    simp [step, liftError, liftTried, Unix.Lock, Unix.RLock, Unix.TryLock, Unix.TryRLock,
      Windows.Lock, Windows.RLock, Windows.TryLock, Windows.TryRLock, osOpenFile, sysFlock,
      winLockFileEx, setFile, h, hl, acquired, Op.isTry, lockEvent, flockHow, lockFileExFlags]

theorem step_lock_err (b : Backend) (op : Op) (os : OS) (c : Consts) (s : State)
    (file : File) (e : GoError) (hb : b ≠ Backend.other) (hop : op.isAcquire = true)
    (h : os.openFile s.trace s.f.path (openFlag b c op) 0o666 = OpenResult.ok file)
    (hl : lockAnswer b os c op
      (s.trace ++ [Event.openFile s.f.path (openFlag b c op) 0o666 (OpenResult.ok file)])
      file = some e) :
    step b os c op s =
      (if op.isTry = true ∧ isContention b c e then Result.tried false none else passedOn op e,
      ⟨⟨s.f.path, none⟩,
        s.trace ++ [Event.openFile s.f.path (openFlag b c op) 0o666 (OpenResult.ok file),
          lockEvent b c op file (some e),
          Event.close file (os.close
            (s.trace ++ [Event.openFile s.f.path (openFlag b c op) 0o666 (OpenResult.ok file),
              lockEvent b c op file (some e)]) file)]⟩) := by
  cases b <;> cases op <;> simp [Op.isAcquire] at hb hop <;>
    simp only [openFlag, lockAnswer, flockHow, lockFileExFlags] at h hl ⊢ <;>
    simp [step, liftError, liftTried, Unix.Lock, Unix.RLock, Unix.TryLock, Unix.TryRLock,
      Windows.Lock, Windows.RLock, Windows.TryLock, Windows.TryRLock, osOpenFile, sysFlock,
      winLockFileEx, setFile, closeAndClear, fileClose, h, hl, passedOn, Op.isTry, lockEvent,
      flockHow, lockFileExFlags, isContention] <;>
    split <;> simp_all

theorem step_unlock_idle (b : Backend) (os : OS) (c : Consts) (s : State)
    (hb : b ≠ Backend.other) (h : s.f.file = none) :
    step b os c Op.Unlock s = (Result.error none, s) := by
  cases b <;> simp at hb <;>
    simp [step, liftError, Unix.Unlock, Windows.Unlock, h]

theorem step_unlock_held (b : Backend) (os : OS) (c : Consts) (s : State) (file : File)
    (hb : b ≠ Backend.other) (h : s.f.file = some file) :
    step b os c Op.Unlock s = (Result.error (unlockAnswer b os c s.trace file),
      ⟨⟨s.f.path, none⟩,
        s.trace ++ [unlockEvent b c file (unlockAnswer b os c s.trace file),
          Event.close file (os.close
            (s.trace ++ [unlockEvent b c file (unlockAnswer b os c s.trace file)]) file)]⟩) := by
  cases b <;> simp at hb <;>
    simp [step, liftError, Unix.Unlock, Windows.Unlock, h, sysFlock, winUnlockFileEx,
      closeAndClear, fileClose, setFile, unlockAnswer, unlockEvent]

/-! ## Claim C1 -/

/-- C1, as stated, is false: on a handle that already stores a file, an acquire whose
`os.OpenFile` fails returns the error and returns before the handle is touched, so the
stored file reference is still there. Here `Lock` of `flock_unix.go` on the handle
`heldState` on a host where the directory is missing. -/
theorem C1_counterexample :
    ¬ (∀ (b : Backend) (op : Op) (os : OS) (c : Consts) (s : State),
        b ≠ Backend.other → op.isAcquire = true →
        (step b os c op s).1.failed = true → (step b os c op s).2.f.file = none) := by
  intro h
  have h1 := h Backend.unix Op.Lock osNoDir linuxConsts heldState (by decide) rfl rfl
  simp [step, liftError, Unix.Lock, osOpenFile, osNoDir, heldState] at h1

/-- C1, amended: for each of the four acquire methods of the POSIX and Windows builds,
for every handle and every outcome of the system calls, if the method returns an error or
`acquired = false` then either the handle is idle afterwards, or `os.OpenFile` failed, it
was the only call issued, and the handle is unchanged. In particular a handle that was
idle before the call is idle afterwards. -/
theorem C1_failed_acquire_leaves_idle (b : Backend) (op : Op) (os : OS) (c : Consts)
    (s : State) (hb : b ≠ Backend.other) (hop : op.isAcquire = true)
    (hfail : (step b os c op s).1.failed = true) :
    ((step b os c op s).2.f.file = none ∨
      ((step b os c op s).2.f = s.f ∧
        ∃ flag e, (step b os c op s).2.trace =
          s.trace ++ [Event.openFile s.f.path flag 0o666 (OpenResult.err e)])) ∧
    (s.f.file = none → (step b os c op s).2.f.file = none) := by
  cases h : os.openFile s.trace s.f.path (openFlag b c op) 0o666 with
  | err e =>
    rw [step_open_err b op os c s e hb hop h]
    exact ⟨Or.inr ⟨rfl, _, e, rfl⟩, fun hi => hi⟩
  | ok file =>
    cases hl : lockAnswer b os c op
      (s.trace ++ [Event.openFile s.f.path (openFlag b c op) 0o666 (OpenResult.ok file)])
      file with
    | none =>
      rw [step_lock_ok b op os c s file hb hop h hl] at hfail
      cases op <;> simp [acquired, Op.isTry, Result.failed] at hfail
    | some e =>
      rw [step_lock_err b op os c s file e hb hop h hl]
      exact ⟨Or.inl rfl, fun _ => rfl⟩

/-- Witness of C1 (amended): `TryLock` of the POSIX build on a fresh handle, on a host
where the lock is held elsewhere (`EAGAIN`), returns `acquired = false` and leaves the
handle idle. -/
theorem C1_failed_acquire_leaves_idle_witness :
    (step Backend.unix (osBusy 11) linuxConsts Op.TryLock idleState).1.failed = true ∧
    (step Backend.unix (osBusy 11) linuxConsts Op.TryLock idleState).2.f.file = none :=
  ⟨by decide,
    (C1_failed_acquire_leaves_idle Backend.unix Op.TryLock (osBusy 11) linuxConsts idleState
      (by decide) (by decide) (by decide)).2 (by decide)⟩

/-! ## Claim C2 -/

/-- C2: on the POSIX and Windows builds, `Unlock` on an idle handle returns nil, issues
no system call (the trace is unchanged) and leaves the handle unchanged; hence any number
of `Unlock` calls in a row on an idle handle all return nil and change nothing. -/
theorem C2_unlock_idle_is_noop (b : Backend) (os : OS) (c : Consts) (s : State)
    (hb : b ≠ Backend.other) (hidle : s.f.file = none) :
    step b os c Op.Unlock s = (Result.error none, s) ∧
    ∀ n : Nat,
      runResults b os c (List.replicate n Op.Unlock) s = List.replicate n (Result.error none) ∧
      run b os c (List.replicate n Op.Unlock) s = s := by
  refine ⟨step_unlock_idle b os c s hb hidle, fun n => ?_⟩
  induction n with
  | zero => exact ⟨rfl, rfl⟩
  | succ n ih =>
    simp only [List.replicate_succ, runResults, run, step_unlock_idle b os c s hb hidle]
    exact ⟨by rw [ih.1], ih.2⟩

/-- Witness of C2: three `Unlock` calls on a fresh handle of the Windows build, on a host
where unlocking and closing would fail. -/
theorem C2_unlock_idle_is_noop_witness :
    idleState.f.file = none ∧
    runResults Backend.windows (osBusy 33) linuxConsts
      (List.replicate 3 Op.Unlock) idleState = List.replicate 3 (Result.error none) ∧
    (run Backend.windows (osBusy 33) linuxConsts
      (List.replicate 3 Op.Unlock) idleState).trace = [] :=
  ⟨rfl,
    ((C2_unlock_idle_is_noop Backend.windows (osBusy 33) linuxConsts idleState
      (by decide) rfl).2 3).1,
    by rw [((C2_unlock_idle_is_noop Backend.windows (osBusy 33) linuxConsts idleState
      (by decide) rfl).2 3).2]; rfl⟩

/-! ## Claim C3 -/

/-- C3: on the POSIX and Windows builds, `Unlock` on a handle that stores the file `file`
issues exactly two calls, the unlock request on `file` (`syscall.Flock` with `LOCK_UN`,
or `windows.UnlockFileEx`) and then `Close` on `file`; it leaves the handle idle with
its path unchanged; and it returns the answer of the unlock request, whatever `Close`
answers: two hosts that answer the unlock request alike give the same result. -/
theorem C3_unlock_held (os : OS) (c : Consts) (s : State) (file : File)
    (hheld : s.f.file = some file) :
    Unix.Unlock os c s =
      (os.flock s.trace file.Fd c.LOCK_UN,
        ⟨⟨s.f.path, none⟩,
          s.trace ++ [Event.flock file.Fd c.LOCK_UN (os.flock s.trace file.Fd c.LOCK_UN),
            Event.close file (os.close (s.trace ++
              [Event.flock file.Fd c.LOCK_UN (os.flock s.trace file.Fd c.LOCK_UN)]) file)]⟩) ∧
    Windows.Unlock os c s =
      (os.unlockFileEx s.trace file.Fd 0 1 0 Overlapped.zero,
        ⟨⟨s.f.path, none⟩,
          s.trace ++ [Event.unlockFileEx file.Fd 0 1 0 Overlapped.zero
              (os.unlockFileEx s.trace file.Fd 0 1 0 Overlapped.zero),
            Event.close file (os.close (s.trace ++
              [Event.unlockFileEx file.Fd 0 1 0 Overlapped.zero
                (os.unlockFileEx s.trace file.Fd 0 1 0 Overlapped.zero)]) file)]⟩) ∧
    (∀ os2 : OS, os2.flock = os.flock → (Unix.Unlock os2 c s).1 = (Unix.Unlock os c s).1) ∧
    (∀ os2 : OS, os2.unlockFileEx = os.unlockFileEx →
      (Windows.Unlock os2 c s).1 = (Windows.Unlock os c s).1) := by
  refine ⟨?_, ?_, ?_, ?_⟩
  · simp [Unix.Unlock, hheld, sysFlock, closeAndClear, fileClose, setFile]
  · simp [Windows.Unlock, hheld, winUnlockFileEx, closeAndClear, fileClose, setFile]
  · intro os2 h
    simp [Unix.Unlock, hheld, sysFlock, h]
  · intro os2 h
    simp [Windows.Unlock, hheld, winUnlockFileEx, h]

/-- Witness of C3: `Unlock` of the POSIX build on a handle that stores descriptor 3, on a
host where unlocking fails with `EBADF` and `Close` fails with `EIO`: the result is
`EBADF`, the file is closed after the unlock request, the handle is idle. -/
theorem C3_unlock_held_witness :
    heldState.f.file = some ⟨3⟩ ∧
    Unix.Unlock (osBusy 11) linuxConsts heldState =
      (some (GoError.errno 9),
        ⟨⟨"x.lock", none⟩,
          [Event.flock 3 8 (some (GoError.errno 9)),
            Event.close ⟨3⟩ (some (GoError.errno 5))]⟩) :=
  ⟨rfl, (C3_unlock_held (osBusy 11) linuxConsts heldState ⟨3⟩ rfl).1⟩

/-! ## Claim C4 -/

/-- C4: for `TryLock` and `TryRLock` of the POSIX and Windows builds, when `os.OpenFile`
succeeds with `file` and `r` is the answer to the lock request: the result is
`(true, nil)` exactly when `r` is nil; it is `(false, nil)` exactly when `r` is an error
that is the contention signal of the build; and for every other error `e` the result is
`(false, e)`. The contention signal is `EWOULDBLOCK` or `EAGAIN` on POSIX; on Windows it
is `ERROR_LOCK_VIOLATION`, tested with `errors.Is`, which for an error number means being
that number. -/
theorem C4_try_acquire_result (b : Backend) (op : Op) (os : OS) (c : Consts) (s : State)
    (file : File) (r : Option GoError) (hb : b ≠ Backend.other) (hop : op.isTry = true)
    (hopen : os.openFile s.trace s.f.path (openFlag b c op) 0o666 = OpenResult.ok file)
    (hr : lockAnswer b os c op
      (s.trace ++ [Event.openFile s.f.path (openFlag b c op) 0o666 (OpenResult.ok file)])
      file = r) :
    ((step b os c op s).1 = Result.tried true none ↔ r = none) ∧
    ((step b os c op s).1 = Result.tried false none ↔ ∃ e, r = some e ∧ isContention b c e) ∧
    (∀ e, r = some e → ¬ isContention b c e →
      (step b os c op s).1 = Result.tried false (some e)) ∧
    (∀ e, isContention Backend.unix c e ↔
      e = GoError.errno c.EWOULDBLOCK ∨ e = GoError.errno c.EAGAIN) ∧
    (∀ n, isContention Backend.windows c (GoError.errno n) ↔ n = c.ERROR_LOCK_VIOLATION) := by
  have hacq : op.isAcquire = true := by cases op <;> simp_all [Op.isTry, Op.isAcquire]
  refine ⟨?_, ?_, ?_, fun e => Iff.rfl, fun n => by simp [isContention, errorsIs]⟩
  · cases r with
    | none => simp [step_lock_ok b op os c s file hb hacq hopen hr, acquired, hop]
    | some e =>
      simp only [step_lock_err b op os c s file e hb hacq hopen hr, passedOn, hop]
      split <;> simp
  · cases r with
    | none => simp [step_lock_ok b op os c s file hb hacq hopen hr, acquired, hop]
    | some e =>
      simp only [step_lock_err b op os c s file e hb hacq hopen hr, passedOn, hop]
      split <;> simp_all
  · intro e he hne
    subst he
    simp [step_lock_err b op os c s file e hb hacq hopen hr, passedOn, hop, hne]

/-- Witness of C4: `TryRLock` of the Windows build on a fresh handle, on a host where the
lock request fails with `ERROR_LOCK_VIOLATION` (33): the result is `(false, nil)`. -/
theorem C4_try_acquire_result_witness :
    Op.TryRLock.isTry = true ∧
    (step Backend.windows (osBusy 33) linuxConsts Op.TryRLock idleState).1 =
      Result.tried false none :=
  ⟨rfl,
    (C4_try_acquire_result Backend.windows Op.TryRLock (osBusy 33) linuxConsts idleState ⟨3⟩
      (some (GoError.errno 33)) (by decide) rfl rfl rfl).2.1.mpr
      ⟨GoError.errno 33, rfl, by decide⟩⟩

/-! ## Claim C5 -/

/-- C5: for the blocking acquires `Lock` and `RLock` of the POSIX and Windows builds,
for every outcome of the system calls: the method returns nil if and only if both
`os.OpenFile` and the lock request succeed; when `os.OpenFile` fails with `e` the method
returns `e` and has issued no other call; when the lock request fails with `e` the method
returns `e` unchanged, also when `e` is the contention signal of the build. -/
theorem C5_blocking_acquire_result (b : Backend) (op : Op) (os : OS) (c : Consts)
    (s : State) (hb : b ≠ Backend.other) (hop : op = Op.Lock ∨ op = Op.RLock) :
    ((step b os c op s).1 = Result.error none ↔
      ∃ file, os.openFile s.trace s.f.path (openFlag b c op) 0o666 = OpenResult.ok file ∧
        lockAnswer b os c op
          (s.trace ++ [Event.openFile s.f.path (openFlag b c op) 0o666 (OpenResult.ok file)])
          file = none) ∧
    (∀ e, os.openFile s.trace s.f.path (openFlag b c op) 0o666 = OpenResult.err e →
      (step b os c op s).1 = Result.error (some e) ∧
      (step b os c op s).2.trace =
        s.trace ++ [Event.openFile s.f.path (openFlag b c op) 0o666 (OpenResult.err e)]) ∧
    (∀ file e, os.openFile s.trace s.f.path (openFlag b c op) 0o666 = OpenResult.ok file →
      lockAnswer b os c op
        (s.trace ++ [Event.openFile s.f.path (openFlag b c op) 0o666 (OpenResult.ok file)])
        file = some e →
      (step b os c op s).1 = Result.error (some e)) := by
  have hacq : op.isAcquire = true := by rcases hop with h | h <;> subst h <;> rfl
  have htry : op.isTry = false := by rcases hop with h | h <;> subst h <;> rfl
  refine ⟨?_, ?_, ?_⟩
  · cases h : os.openFile s.trace s.f.path (openFlag b c op) 0o666 with
    | err e => simp [step_open_err b op os c s e hb hacq h, passedOn, htry]
    | ok file =>
      cases hl : lockAnswer b os c op
        (s.trace ++ [Event.openFile s.f.path (openFlag b c op) 0o666 (OpenResult.ok file)])
        file with
      | none => simp [step_lock_ok b op os c s file hb hacq h hl, acquired, htry, hl]
      | some e => simp [step_lock_err b op os c s file e hb hacq h hl, passedOn, htry, hl]
  · intro e h
    simp [step_open_err b op os c s e hb hacq h, passedOn, htry]
  · intro file e h hl
    simp [step_lock_err b op os c s file e hb hacq h hl, passedOn, htry]

/-- Witness of C5: `Lock` of the POSIX build on a fresh handle, on a host where the lock
request fails with `EAGAIN` (11), the would-block code: the method returns `EAGAIN`. -/
theorem C5_blocking_acquire_result_witness :
    (step Backend.unix (osBusy 11) linuxConsts Op.Lock idleState).1 =
      Result.error (some (GoError.errno 11)) :=
  (C5_blocking_acquire_result Backend.unix Op.Lock (osBusy 11) linuxConsts idleState
    (by decide) (Or.inl rfl)).2.2 ⟨3⟩ (GoError.errno 11) rfl rfl

/-! ## Claim C6 -/

/-- C6: in the fallback build, on every handle, `Lock`, `RLock` and `Unlock` return
`ErrUnsupportedPlatform`, `TryLock` and `TryRLock` return `(false,
ErrUnsupportedPlatform)`, and each of the five methods leaves the handle and the trace of
system calls unchanged. -/
theorem C6_unsupported_platform (os : OS) (c : Consts) (s : State) :
    Other.Lock os c s = (some ErrUnsupportedPlatform, s) ∧
    Other.RLock os c s = (some ErrUnsupportedPlatform, s) ∧
    Other.Unlock os c s = (some ErrUnsupportedPlatform, s) ∧
    Other.TryLock os c s = ((false, some ErrUnsupportedPlatform), s) ∧
    Other.TryRLock os c s = ((false, some ErrUnsupportedPlatform), s) :=
  ⟨rfl, rfl, rfl, rfl, rfl⟩

/-! ## Bit arithmetic on flag words -/

theorem or_hasBits_right (a k : Nat) : hasBits (a ||| k) k := by
  unfold hasBits
  apply Nat.eq_of_testBit_eq
  intro i
  simp only [Nat.testBit_and, Nat.testBit_or]
  cases a.testBit i <;> cases k.testBit i <;> rfl

theorem or_hasBits_left (k a : Nat) : hasBits (k ||| a) k := by
  unfold hasBits
  apply Nat.eq_of_testBit_eq
  intro i
  simp only [Nat.testBit_and, Nat.testBit_or]
  cases a.testBit i <;> cases k.testBit i <;> rfl

theorem or_lacksBits (a b k : Nat) (ha : a &&& k = 0) (hb : b &&& k = 0) :
    lacksBits (a ||| b) k := by
  unfold lacksBits
  rw [Nat.and_comm, Nat.and_or_distrib_left, Nat.and_comm k a, Nat.and_comm k b, ha, hb]
  rfl

/-! ## The calls of an acquire method -/

theorem step_opensOnce (b : Backend) (op : Op) (os : OS) (c : Consts) (s : State)
    (hb : b ≠ Backend.other) (hop : op.isAcquire = true) :
    opensOnce os s (step b os c op s).2 (openFlag b c op) := by
  unfold opensOnce
  cases h : os.openFile s.trace s.f.path (openFlag b c op) 0o666 with
  | err e =>
    rw [step_open_err b op os c s e hb hop h]
    exact ⟨[], rfl, by simp⟩
  | ok file =>
    cases hl : lockAnswer b os c op
      (s.trace ++ [Event.openFile s.f.path (openFlag b c op) 0o666 (OpenResult.ok file)])
      file with
    | none =>
      rw [step_lock_ok b op os c s file hb hop h hl]
      refine ⟨[lockEvent b c op file none], rfl, ?_⟩
      cases b <;> simp [lockEvent, Event.isOpen]
    | some e =>
      rw [step_lock_err b op os c s file e hb hop h hl]
      refine ⟨[lockEvent b c op file (some e), _], rfl, ?_⟩
      cases b <;> simp [lockEvent, Event.isOpen]

theorem step_locksNext (b : Backend) (op : Op) (os : OS) (c : Consts) (s : State)
    (file : File) (hb : b ≠ Backend.other) (hop : op.isAcquire = true)
    (h : os.openFile s.trace s.f.path (openFlag b c op) 0o666 = OpenResult.ok file) :
    locksNext s (step b os c op s).2 (openFlag b c op) file (lockEvent b c op file) := by
  unfold locksNext
  cases hl : lockAnswer b os c op
    (s.trace ++ [Event.openFile s.f.path (openFlag b c op) 0o666 (OpenResult.ok file)])
    file with
  | none =>
    rw [step_lock_ok b op os c s file hb hop h hl]
    exact ⟨none, [], rfl, by simp⟩
  | some e =>
    rw [step_lock_err b op os c s file e hb hop h hl]
    exact ⟨some e, [_], rfl, by simp [Event.isClose]⟩

/-! ## Claim C7 -/

/-- C7: every acquire method calls `os.OpenFile` once, first, on the path of the handle,
with permission bits 0666 and a flag word that is `O_CREATE` or-ed with the access mode:
`O_RDWR` for `Lock` and `TryLock` and `O_RDONLY` for `RLock` and `TryRLock` of the POSIX
build, `O_RDWR` for all four of the Windows build. Each flag word has the bits of
`O_CREATE`, and on a host whose flag constants sit on different bits no bit of `O_TRUNC`. -/
theorem C7_open_arguments (os : OS) (c : Consts) (s : State) :
    opensOnce os s (Unix.Lock os c s).2 (c.O_CREATE ||| c.O_RDWR) ∧
    opensOnce os s (Unix.TryLock os c s).2 (c.O_CREATE ||| c.O_RDWR) ∧
    opensOnce os s (Unix.RLock os c s).2 (c.O_CREATE ||| c.O_RDONLY) ∧
    opensOnce os s (Unix.TryRLock os c s).2 (c.O_CREATE ||| c.O_RDONLY) ∧
    opensOnce os s (Windows.Lock os c s).2 (c.O_CREATE ||| c.O_RDWR) ∧
    opensOnce os s (Windows.TryLock os c s).2 (c.O_CREATE ||| c.O_RDWR) ∧
    opensOnce os s (Windows.RLock os c s).2 (c.O_CREATE ||| c.O_RDWR) ∧
    opensOnce os s (Windows.TryRLock os c s).2 (c.O_CREATE ||| c.O_RDWR) ∧
    hasBits (c.O_CREATE ||| c.O_RDWR) c.O_CREATE ∧
    hasBits (c.O_CREATE ||| c.O_RDONLY) c.O_CREATE ∧
    (c.distinctBits →
      lacksBits (c.O_CREATE ||| c.O_RDWR) c.O_TRUNC ∧
      lacksBits (c.O_CREATE ||| c.O_RDONLY) c.O_TRUNC) :=
  ⟨step_opensOnce Backend.unix Op.Lock os c s (by decide) rfl,
   step_opensOnce Backend.unix Op.TryLock os c s (by decide) rfl,
   step_opensOnce Backend.unix Op.RLock os c s (by decide) rfl,
   step_opensOnce Backend.unix Op.TryRLock os c s (by decide) rfl,
   step_opensOnce Backend.windows Op.Lock os c s (by decide) rfl,
   step_opensOnce Backend.windows Op.TryLock os c s (by decide) rfl,
   step_opensOnce Backend.windows Op.RLock os c s (by decide) rfl,
   step_opensOnce Backend.windows Op.TryRLock os c s (by decide) rfl,
   or_hasBits_left _ _, or_hasBits_left _ _,
   fun h => ⟨or_lacksBits _ _ _ h.1 h.2.1, or_lacksBits _ _ _ h.1 h.2.2.1⟩⟩

/-- Witness of C7 on linux: the flag words are `O_CREATE|O_RDWR` and `O_CREATE|O_RDONLY`,
neither has the bit of `O_TRUNC`. -/
theorem C7_open_arguments_witness :
    linuxConsts.distinctBits ∧
    lacksBits (linuxConsts.O_CREATE ||| linuxConsts.O_RDWR) linuxConsts.O_TRUNC ∧
    lacksBits (linuxConsts.O_CREATE ||| linuxConsts.O_RDONLY) linuxConsts.O_TRUNC :=
  ⟨by decide, (C7_open_arguments osFree linuxConsts idleState).2.2.2.2.2.2.2.2.2.2 (by decide)⟩

/-! ## Claim C8 -/

/-- C8: in every acquire method whose `os.OpenFile` succeeds with `file`, the next call
is the lock request on the descriptor of `file`, with the mode of the method:
`LOCK_EX`, `LOCK_SH`, `LOCK_EX|LOCK_NB`, `LOCK_SH|LOCK_NB` for `Lock`, `RLock`, `TryLock`,
`TryRLock` of the POSIX build, and `LOCKFILE_EXCLUSIVE_LOCK`, `0`,
`LOCKFILE_EXCLUSIVE_LOCK|LOCKFILE_FAIL_IMMEDIATELY`, `LOCKFILE_FAIL_IMMEDIATELY` for those
of the Windows build. Every `LockFileEx` request and the `UnlockFileEx` request of
`Unlock` cover offset 0, length 1. On a host whose flag constants sit on different bits,
the non-blocking flag is set in the words of `TryLock` and `TryRLock` and in no other, and
on Windows the exclusive flag is set in the words of `Lock` and `TryLock` and in no
other. -/
theorem C8_lock_arguments (os : OS) (c : Consts) (s : State) (file : File) :
    (os.openFile s.trace s.f.path (c.O_CREATE ||| c.O_RDWR) 0o666 = OpenResult.ok file →
      locksNext s (Unix.Lock os c s).2 (c.O_CREATE ||| c.O_RDWR) file
        (Event.flock file.Fd c.LOCK_EX) ∧
      locksNext s (Unix.TryLock os c s).2 (c.O_CREATE ||| c.O_RDWR) file
        (Event.flock file.Fd (c.LOCK_EX ||| c.LOCK_NB)) ∧
      locksNext s (Windows.Lock os c s).2 (c.O_CREATE ||| c.O_RDWR) file
        (Event.lockFileEx file.Fd c.LOCKFILE_EXCLUSIVE_LOCK 0 1 0 Overlapped.zero) ∧
      locksNext s (Windows.RLock os c s).2 (c.O_CREATE ||| c.O_RDWR) file
        (Event.lockFileEx file.Fd 0 0 1 0 Overlapped.zero) ∧
      locksNext s (Windows.TryLock os c s).2 (c.O_CREATE ||| c.O_RDWR) file
        (Event.lockFileEx file.Fd
          (c.LOCKFILE_EXCLUSIVE_LOCK ||| c.LOCKFILE_FAIL_IMMEDIATELY) 0 1 0 Overlapped.zero) ∧
      locksNext s (Windows.TryRLock os c s).2 (c.O_CREATE ||| c.O_RDWR) file
        (Event.lockFileEx file.Fd c.LOCKFILE_FAIL_IMMEDIATELY 0 1 0 Overlapped.zero)) ∧
    (os.openFile s.trace s.f.path (c.O_CREATE ||| c.O_RDONLY) 0o666 = OpenResult.ok file →
      locksNext s (Unix.RLock os c s).2 (c.O_CREATE ||| c.O_RDONLY) file
        (Event.flock file.Fd c.LOCK_SH) ∧
      locksNext s (Unix.TryRLock os c s).2 (c.O_CREATE ||| c.O_RDONLY) file
        (Event.flock file.Fd (c.LOCK_SH ||| c.LOCK_NB))) ∧
    (∀ flags r, (Event.lockFileEx file.Fd flags 0 1 0 Overlapped.zero r).byteRange =
      some (0, 1)) ∧
    (s.f.file = some file →
      ∃ r rest, (Windows.Unlock os c s).2.trace =
          s.trace ++ Event.unlockFileEx file.Fd 0 1 0 Overlapped.zero r :: rest ∧
        (Event.unlockFileEx file.Fd 0 1 0 Overlapped.zero r).byteRange = some (0, 1)) ∧
    hasBits (c.LOCK_EX ||| c.LOCK_NB) c.LOCK_NB ∧
    hasBits (c.LOCK_SH ||| c.LOCK_NB) c.LOCK_NB ∧
    hasBits (c.LOCKFILE_EXCLUSIVE_LOCK ||| c.LOCKFILE_FAIL_IMMEDIATELY)
      c.LOCKFILE_FAIL_IMMEDIATELY ∧
    hasBits c.LOCKFILE_FAIL_IMMEDIATELY c.LOCKFILE_FAIL_IMMEDIATELY ∧
    hasBits c.LOCKFILE_EXCLUSIVE_LOCK c.LOCKFILE_EXCLUSIVE_LOCK ∧
    hasBits (c.LOCKFILE_EXCLUSIVE_LOCK ||| c.LOCKFILE_FAIL_IMMEDIATELY)
      c.LOCKFILE_EXCLUSIVE_LOCK ∧
    (c.distinctBits →
      ¬ hasBits c.LOCK_EX c.LOCK_NB ∧ ¬ hasBits c.LOCK_SH c.LOCK_NB ∧
      ¬ hasBits c.LOCKFILE_EXCLUSIVE_LOCK c.LOCKFILE_FAIL_IMMEDIATELY ∧
      ¬ hasBits 0 c.LOCKFILE_FAIL_IMMEDIATELY ∧
      ¬ hasBits 0 c.LOCKFILE_EXCLUSIVE_LOCK ∧
      ¬ hasBits c.LOCKFILE_FAIL_IMMEDIATELY c.LOCKFILE_EXCLUSIVE_LOCK) := by
  refine ⟨fun h => ⟨?_, ?_, ?_, ?_, ?_, ?_⟩, fun h => ⟨?_, ?_⟩, fun _ _ => rfl, fun h => ?_,
    or_hasBits_right _ _, or_hasBits_right _ _, or_hasBits_right _ _, Nat.and_self _,
    Nat.and_self _, or_hasBits_left _ _, fun hd => ?_⟩
  · exact step_locksNext Backend.unix Op.Lock os c s file (by decide) rfl h
  · exact step_locksNext Backend.unix Op.TryLock os c s file (by decide) rfl h
  · exact step_locksNext Backend.windows Op.Lock os c s file (by decide) rfl h
  · exact step_locksNext Backend.windows Op.RLock os c s file (by decide) rfl h
  · exact step_locksNext Backend.windows Op.TryLock os c s file (by decide) rfl h
  · exact step_locksNext Backend.windows Op.TryRLock os c s file (by decide) rfl h
  · exact step_locksNext Backend.unix Op.RLock os c s file (by decide) rfl h
  · exact step_locksNext Backend.unix Op.TryRLock os c s file (by decide) rfl h
  · exact ⟨_, _, congrArg (fun x => x.2.trace)
      (step_unlock_held Backend.windows os c s file (by decide) h), rfl⟩
  · obtain ⟨_, _, _, hnb, hex, hsh, hx, hf, hxf⟩ := hd
    unfold hasBits
    refine ⟨?_, ?_, ?_, ?_, ?_, ?_⟩
    · rw [hex]; exact fun h => hnb h.symm
    · rw [hsh]; exact fun h => hnb h.symm
    · rw [hxf]; exact fun h => hf h.symm
    · rw [Nat.zero_and]; exact fun h => hf h.symm
    · rw [Nat.zero_and]; exact fun h => hx h.symm
    · rw [Nat.and_comm, hxf]; exact fun h => hx h.symm

/-- Witness of C8 on linux: `Lock` of the POSIX build on a fresh handle issues
`os.OpenFile`, then `syscall.Flock(3, LOCK_EX)`, and `LOCK_EX` lacks the non-blocking
bit. -/
theorem C8_lock_arguments_witness :
    osFree.openFile [] "x.lock" (0x40 ||| 2) 0o666 = OpenResult.ok ⟨3⟩ ∧
    locksNext idleState (Unix.Lock osFree linuxConsts idleState).2 (0x40 ||| 2) ⟨3⟩
      (Event.flock 3 2) ∧
    ¬ hasBits linuxConsts.LOCK_EX linuxConsts.LOCK_NB :=
  ⟨rfl, ((C8_lock_arguments osFree linuxConsts idleState ⟨3⟩).1 rfl).1,
    ((C8_lock_arguments osFree linuxConsts idleState ⟨3⟩).2.2.2.2.2.2.2.2.2.2 (by decide)).1⟩

/-! ## The accounting of open files along a run -/

theorem openFiles_append (t1 t2 : List Event) :
    openFiles (t1 ++ t2) = t2.foldl applyEvent (openFiles t1) := by
  simp [openFiles, List.foldl_append]

theorem applyEvent_lockEvent (b : Backend) (c : Consts) (op : Op) (file : File)
    (r : Option GoError) (files : List File) :
    applyEvent files (lockEvent b c op file r) = files := by
  cases b <;> rfl

theorem applyEvent_unlockEvent (b : Backend) (c : Consts) (file : File)
    (r : Option GoError) (files : List File) :
    applyEvent files (unlockEvent b c file r) = files := by
  cases b <;> rfl

theorem isOpened_lockEvent (b : Backend) (c : Consts) (op : Op) (file : File)
    (r : Option GoError) : (lockEvent b c op file r).isOpened = false := by
  cases b <;> rfl

theorem isClose_lockEvent (b : Backend) (c : Consts) (op : Op) (file : File)
    (r : Option GoError) : (lockEvent b c op file r).isClose = false := by
  cases b <;> rfl

theorem isOpened_unlockEvent (b : Backend) (c : Consts) (file : File)
    (r : Option GoError) : (unlockEvent b c file r).isOpened = false := by
  cases b <;> rfl

theorem isClose_unlockEvent (b : Backend) (c : Consts) (file : File)
    (r : Option GoError) : (unlockEvent b c file r).isClose = false := by
  cases b <;> rfl

theorem step_other (os : OS) (c : Consts) (op : Op) (s : State) :
    (step Backend.other os c op s).2 = s := by
  cases op <;> rfl

theorem applyEvent_opened (files : List File) (name : String) (flag perm : Nat)
    (file : File) :
    applyEvent files (Event.openFile name flag perm (OpenResult.ok file)) = files ++ [file] :=
  rfl

theorem applyEvent_openErr (files : List File) (name : String) (flag perm : Nat)
    (e : GoError) :
    applyEvent files (Event.openFile name flag perm (OpenResult.err e)) = files :=
  rfl

theorem applyEvent_close (files : List File) (file : File) (r : Option GoError) :
    applyEvent files (Event.close file r) = files.erase file :=
  rfl

theorem trace_accounting (t : List Event) (e : Event) :
    openFiles (t ++ [e]) = applyEvent (openFiles t) e ∧
    countOpened (t ++ [e]) = countOpened t + (if e.isOpened = true then 1 else 0) ∧
    countClosed (t ++ [e]) = countClosed t + (if e.isClose = true then 1 else 0) := by
  refine ⟨by simp [openFiles], ?_, ?_⟩
  · simp [countOpened, List.countP_append, List.countP_cons]
  · simp [countClosed, List.countP_append, List.countP_cons]

theorem trace_accounting_two (t : List Event) (e1 e2 : Event) :
    openFiles (t ++ [e1, e2]) = applyEvent (applyEvent (openFiles t) e1) e2 ∧
    countOpened (t ++ [e1, e2]) = countOpened t + (if e1.isOpened = true then 1 else 0) +
      (if e2.isOpened = true then 1 else 0) ∧
    countClosed (t ++ [e1, e2]) = countClosed t + (if e1.isClose = true then 1 else 0) +
      (if e2.isClose = true then 1 else 0) := by
  have h : t ++ [e1, e2] = (t ++ [e1]) ++ [e2] := by simp
  rw [h]
  obtain ⟨a1, a2, a3⟩ := trace_accounting t e1
  obtain ⟨b1, b2, b3⟩ := trace_accounting (t ++ [e1]) e2
  rw [b1, b2, b3, a1, a2, a3]
  exact ⟨rfl, rfl, rfl⟩

theorem trace_accounting_three (t : List Event) (e1 e2 e3 : Event) :
    openFiles (t ++ [e1, e2, e3]) =
      applyEvent (applyEvent (applyEvent (openFiles t) e1) e2) e3 ∧
    countOpened (t ++ [e1, e2, e3]) = countOpened t + (if e1.isOpened = true then 1 else 0) +
      (if e2.isOpened = true then 1 else 0) + (if e3.isOpened = true then 1 else 0) ∧
    countClosed (t ++ [e1, e2, e3]) = countClosed t + (if e1.isClose = true then 1 else 0) +
      (if e2.isClose = true then 1 else 0) + (if e3.isClose = true then 1 else 0) := by
  have h : t ++ [e1, e2, e3] = (t ++ [e1, e2]) ++ [e3] := by simp
  rw [h]
  obtain ⟨a1, a2, a3⟩ := trace_accounting_two t e1 e2
  obtain ⟨b1, b2, b3⟩ := trace_accounting (t ++ [e1, e2]) e3
  rw [b1, b2, b3, a1, a2, a3]
  exact ⟨rfl, rfl, rfl⟩

theorem step_accounted (b : Backend) (os : OS) (c : Consts) (op : Op) (s : State)
    (hacc : accounted s) (hidle : op.isAcquire = true → s.f.file = none) :
    accounted (step b os c op s).2 ∧ (step b os c op s).2.f.path = s.f.path := by
  by_cases hb : b = Backend.other
  · subst hb
    rw [step_other]
    exact ⟨hacc, rfl⟩
  · obtain ⟨h1, h2⟩ := hacc
    by_cases hop : op.isAcquire = true
    · have hnone := hidle hop
      rw [hnone] at h1 h2
      simp only [Option.toList, List.length_nil, Nat.add_zero] at h1 h2
      cases h : os.openFile s.trace s.f.path (openFlag b c op) 0o666 with
      | err e =>
        rw [step_open_err b op os c s e hb hop h]
        obtain ⟨a1, a2, a3⟩ := trace_accounting s.trace
          (Event.openFile s.f.path (openFlag b c op) 0o666 (OpenResult.err e))
        refine ⟨⟨?_, ?_⟩, rfl⟩
        · show openFiles (s.trace ++ _) = s.f.file.toList
          rw [a1, applyEvent_openErr, h1, hnone]
          rfl
        · show countOpened (s.trace ++ _) = countClosed (s.trace ++ _) + s.f.file.toList.length
          rw [a2, a3, h2, hnone]
          rfl
      | ok file =>
        cases hl : lockAnswer b os c op
          (s.trace ++ [Event.openFile s.f.path (openFlag b c op) 0o666 (OpenResult.ok file)])
          file with
        | none =>
          rw [step_lock_ok b op os c s file hb hop h hl]
          obtain ⟨a1, a2, a3⟩ := trace_accounting_two s.trace
            (Event.openFile s.f.path (openFlag b c op) 0o666 (OpenResult.ok file))
            (lockEvent b c op file none)
          refine ⟨⟨?_, ?_⟩, rfl⟩
          · show openFiles (s.trace ++ _) = [file]
            rw [a1, applyEvent_lockEvent, applyEvent_opened, h1]
            rfl
          · show countOpened (s.trace ++ _) = countClosed (s.trace ++ _) + 1
            rw [a2, a3, h2, isOpened_lockEvent, isClose_lockEvent]
            simp [Event.isOpened, Event.isClose]
        | some e =>
          rw [step_lock_err b op os c s file e hb hop h hl]
          obtain ⟨a1, a2, a3⟩ := trace_accounting_three s.trace
            (Event.openFile s.f.path (openFlag b c op) 0o666 (OpenResult.ok file))
            (lockEvent b c op file (some e))
            (Event.close file (os.close
              (s.trace ++ [Event.openFile s.f.path (openFlag b c op) 0o666 (OpenResult.ok file),
                lockEvent b c op file (some e)]) file))
          refine ⟨⟨?_, ?_⟩, rfl⟩
          · show openFiles (s.trace ++ _) = []
            rw [a1, applyEvent_close, applyEvent_lockEvent, applyEvent_opened, h1]
            simp
          · show countOpened (s.trace ++ _) = countClosed (s.trace ++ _) + 0
            rw [a2, a3, h2, isOpened_lockEvent, isClose_lockEvent]
            simp [Event.isOpened, Event.isClose]
    · have hun : op = Op.Unlock := by cases op <;> simp_all [Op.isAcquire]
      subst hun
      cases hf : s.f.file with
      | none =>
        rw [step_unlock_idle b os c s hb hf]
        exact ⟨⟨h1, h2⟩, rfl⟩
      | some file =>
        rw [step_unlock_held b os c s file hb hf]
        rw [hf] at h1 h2
        obtain ⟨a1, a2, a3⟩ := trace_accounting_two s.trace
          (unlockEvent b c file (unlockAnswer b os c s.trace file))
          (Event.close file (os.close
            (s.trace ++ [unlockEvent b c file (unlockAnswer b os c s.trace file)]) file))
        refine ⟨⟨?_, ?_⟩, rfl⟩
        · show openFiles (s.trace ++ _) = []
          rw [a1, applyEvent_close, applyEvent_unlockEvent, h1]
          simp
        · show countOpened (s.trace ++ _) = countClosed (s.trace ++ _) + 0
          rw [a2, a3, h2, isOpened_unlockEvent, isClose_unlockEvent]
          simp [Event.isOpened, Event.isClose]

theorem run_accounted (b : Backend) (os : OS) (c : Consts) (ops : List Op) :
    ∀ (s : State), accounted s → acquiresOnlyWhenIdle b os c ops s = true →
      ∀ n : Nat, accounted (run b os c (ops.take n) s) ∧
        (run b os c (ops.take n) s).f.path = s.f.path := by
  induction ops with
  | nil =>
    intro s hacc _ n
    simp [run, hacc]
  | cons op ops ih =>
    intro s hacc hg n
    cases n with
    | zero => simp [run, hacc]
    | succ n =>
      simp only [acquiresOnlyWhenIdle, Bool.and_eq_true, Bool.or_eq_true,
        Bool.not_eq_true', Option.isNone_iff_eq_none] at hg
      have hidle : op.isAcquire = true → s.f.file = none := by
        intro h
        rcases hg.1 with h0 | h0
        · rw [h] at h0; cases h0
        · exact h0
      have hstep := step_accounted b os c op s hacc hidle
      have := ih (step b os c op s).2 hstep.1 hg.2 n
      simp only [List.take_succ_cons, run]
      exact ⟨this.1, this.2.trans hstep.2⟩

theorem target_lockEvent (b : Backend) (c : Consts) (op : Op) (file : File)
    (r : Option GoError) : (lockEvent b c op file r).target = some file.Fd := by
  cases b <;> rfl

/-! ## Claim C9 -/

/-- C9: starting from the handle made by `New(path)`, for every finite sequence of the
five methods in which an acquire is only called while the handle is idle, in any build
and for every outcome of the system calls, after each method (after every prefix of the
sequence): the path of the handle is still `path`; the files opened and not yet closed
are none when the handle is idle and exactly the stored file when it holds one; and the
number of successful `os.OpenFile` calls is the number of `Close` calls, plus one when
the handle holds a file, so every opened file was closed once and no descriptor leaks. -/
theorem C9_no_descriptor_leak (b : Backend) (os : OS) (c : Consts) (path : String)
    (ops : List Op) (hguard : acquiresOnlyWhenIdle b os c ops ⟨New path, []⟩ = true)
    (n : Nat) :
    (run b os c (ops.take n) ⟨New path, []⟩).f.path = path ∧
    openFiles (run b os c (ops.take n) ⟨New path, []⟩).trace =
      (run b os c (ops.take n) ⟨New path, []⟩).f.file.toList ∧
    countOpened (run b os c (ops.take n) ⟨New path, []⟩).trace =
      countClosed (run b os c (ops.take n) ⟨New path, []⟩).trace +
        (run b os c (ops.take n) ⟨New path, []⟩).f.file.toList.length := by
  have h0 : accounted ⟨New path, []⟩ := ⟨rfl, rfl⟩
  have h := run_accounted b os c ops ⟨New path, []⟩ h0 hguard n
  exact ⟨h.2, h.1.1, h.1.2⟩

/-- Witness of C9: `Lock`, `Unlock`, `RLock`, `Unlock` on a fresh handle of the POSIX
build; after the third call the handle holds descriptor 7, the only file still open. -/
theorem C9_no_descriptor_leak_witness :
    acquiresOnlyWhenIdle Backend.unix osFree linuxConsts
      [Op.Lock, Op.Unlock, Op.RLock, Op.Unlock] ⟨New "x.lock", []⟩ = true ∧
    openFiles (run Backend.unix osFree linuxConsts
      ([Op.Lock, Op.Unlock, Op.RLock, Op.Unlock].take 3) ⟨New "x.lock", []⟩).trace = [⟨7⟩] :=
  ⟨by decide,
    (C9_no_descriptor_leak Backend.unix osFree linuxConsts "x.lock"
      [Op.Lock, Op.Unlock, Op.RLock, Op.Unlock] (by decide) 3).2.1⟩

/-! ## Claim C10 -/

/-- C10: on a handle that already stores an open file `f1`, an acquire method of the
POSIX or Windows build whose `os.OpenFile` succeeds with `f2` and whose lock request
succeeds is not rejected: it returns success, the handle stores `f2`, the calls issued
are exactly `os.OpenFile` and the lock request on `f2` (no `Close`, and nothing acting on
another descriptor than that of `f2`), and the open files are those open before plus
`f2`; so when the files were accounted for before, `f1` and `f2` are both open afterwards
while the handle only stores `f2`. -/
theorem C10_second_acquire_overwrites (b : Backend) (op : Op) (os : OS) (c : Consts)
    (s : State) (f1 f2 : File) (hb : b ≠ Backend.other) (hop : op.isAcquire = true)
    (hheld : s.f.file = some f1)
    (hopen : os.openFile s.trace s.f.path (openFlag b c op) 0o666 = OpenResult.ok f2)
    (hlock : lockAnswer b os c op
      (s.trace ++ [Event.openFile s.f.path (openFlag b c op) 0o666 (OpenResult.ok f2)])
      f2 = none) :
    (step b os c op s).1 = acquired op ∧
    (step b os c op s).1.failed = false ∧
    (step b os c op s).2.f.file = some f2 ∧
    (step b os c op s).2.trace =
      s.trace ++ [Event.openFile s.f.path (openFlag b c op) 0o666 (OpenResult.ok f2),
        lockEvent b c op f2 none] ∧
    (∀ e ∈ [Event.openFile s.f.path (openFlag b c op) 0o666 (OpenResult.ok f2),
        lockEvent b c op f2 none],
      e.isClose = false ∧ (e.target = none ∨ e.target = some f2.Fd)) ∧
    openFiles (step b os c op s).2.trace = openFiles s.trace ++ [f2] ∧
    (accounted s → openFiles (step b os c op s).2.trace = [f1, f2]) := by
  rw [step_lock_ok b op os c s f2 hb hop hopen hlock]
  have hof : openFiles (s.trace ++
      [Event.openFile s.f.path (openFlag b c op) 0o666 (OpenResult.ok f2),
        lockEvent b c op f2 none]) = openFiles s.trace ++ [f2] := by
    rw [(trace_accounting_two s.trace _ _).1, applyEvent_lockEvent, applyEvent_opened]
  refine ⟨rfl, ?_, rfl, rfl, ?_, hof, ?_⟩
  · cases op <;> simp [acquired, Op.isTry, Result.failed]
  · intro e he
    simp only [List.mem_cons, List.mem_singleton, List.not_mem_nil, or_false] at he
    rcases he with he | he
    · subst he
      exact ⟨rfl, Or.inl rfl⟩
    · subst he
      exact ⟨isClose_lockEvent b c op f2 none, Or.inr (target_lockEvent b c op f2 none)⟩
  · intro hacc
    show openFiles (s.trace ++ _) = [f1, f2]
    rw [hof, hacc.1, hheld]
    rfl

/-- Witness of C10: on the POSIX build, `Lock` and then `TryRLock` on the same handle
without `Unlock`: the second call succeeds, the handle stores descriptor 5, and
descriptors 3 and 5 are both open. -/
theorem C10_second_acquire_overwrites_witness :
    (step Backend.unix osFree linuxConsts Op.Lock idleState).2.f.file = some ⟨3⟩ ∧
    (step Backend.unix osFree linuxConsts Op.TryRLock
      (step Backend.unix osFree linuxConsts Op.Lock idleState).2).1 =
        Result.tried true none ∧
    openFiles (step Backend.unix osFree linuxConsts Op.TryRLock
      (step Backend.unix osFree linuxConsts Op.Lock idleState).2).2.trace = [⟨3⟩, ⟨5⟩] :=
  ⟨rfl,
    (C10_second_acquire_overwrites Backend.unix Op.TryRLock osFree linuxConsts
      (step Backend.unix osFree linuxConsts Op.Lock idleState).2 ⟨3⟩ ⟨5⟩
      (by decide) rfl rfl rfl rfl).1,
    (C10_second_acquire_overwrites Backend.unix Op.TryRLock osFree linuxConsts
      (step Backend.unix osFree linuxConsts Op.Lock idleState).2 ⟨3⟩ ⟨5⟩
      (by decide) rfl rfl rfl rfl).2.2.2.2.2.2 (by decide)⟩

end GoFlock
